import Mathlib

/-!
Verification of the o3seespy command-construction layer.

The source files under `o3seespy/command/` define entity-wrapper classes
(uniaxial materials in `uniaxial_material/standard.py` and
`uniaxial_material/other.py`, fibre layers in `layer.py`).  Every
constructor follows the same shape: coerce the caller's field values
(`float(x)` / `int(x)`), bump a counter attribute on the analysis-context
object `osi`, read the object's tag, assemble `self._parameters`
(op_type literal, tag, then the field tokens), and finally call
`self.to_process(osi)`.

The analysis-context class (`OpenSeesInstance`) and the shared base class
(`OpenSeesObject` / `UniaxialMaterialBase` with `to_process`) are not part
of the four source files; they are modelled from the specification where
indicated.  Everything else is a direct translation of the Python source.
-/

/-- Python runtime values that appear as constructor arguments and as
encoded parameter tokens: `None`, ints, floats (modelled as rationals)
and strings. -/
inductive PyVal where
  | none : PyVal
  | int : ℤ → PyVal
  | float : ℚ → PyVal
  | str : String → PyVal
  deriving DecidableEq

/-- Python exceptions raised by the translated code: `TypeError`
(e.g. `float(None)`), `ValueError` (e.g. `float` of a non-numeric string)
and `AttributeError` (reading `.tag` off an object that has none). -/
inductive PyErr where
  | typeError : PyErr
  | valueError : PyErr
  | attributeError : PyErr
  deriving DecidableEq

/-- The Python builtin `float(x)` as the source uses it: identity on
floats, exact widening of ints, `TypeError` on `None`.  Parsing of
numeric strings is not exercised by any constructor call modelled here,
so a string is mapped to `ValueError` (the non-numeric case). -/
def pyFloat : PyVal → Except PyErr ℚ
  | PyVal.none => Except.error PyErr.typeError
  | PyVal.int i => Except.ok (i : ℚ)
  | PyVal.float q => Except.ok q
  | PyVal.str _ => Except.error PyErr.valueError

/-- The Python builtin `int(x)`: identity on ints, truncation toward zero
on floats, `TypeError` on `None`, `ValueError` on non-numeric strings. -/
def pyInt : PyVal → Except PyErr ℤ
  | PyVal.none => Except.error PyErr.typeError
  | PyVal.int i => Except.ok i
  | PyVal.float q => Except.ok (q.num.tdiv q.den)
  | PyVal.str _ => Except.error PyErr.valueError

/-- The guarded coercion idiom
`if x is None: self.x = None else: self.x = float(x)`. -/
def pyFloatOpt : PyVal → Except PyErr (Option ℚ)
  | PyVal.none => Except.ok Option.none
  | v => (pyFloat v).map Option.some

/-- Modelled from the spec: the Analysis Context (`OpenSeesInstance`,
declared in `base_model.py`, which is not among the source files).  Per
§3 it owns per-category integer tag counters, mutated only by the
constructors' increments, plus the active dispatch backend.  The counter
attributes are exactly the ones the source constructors access: `n_mat`
(every constructor in `other.py` and `layer.py`), and `n_mats` / `mats`
(the constructors in `standard.py`).  Counters start at 0 so that the
first `osi.n_mat += 1; self._tag = osi.n_mat` yields tag 1, as §4.1
requires.  `log` models the dispatch backend's ordered emission record. -/
structure OSI where
  n_mat : ℤ
  n_mats : ℤ
  mats : ℤ
  log : List (List PyVal)
  deriving DecidableEq

/-- Modelled from the spec: a freshly created Analysis Context, all
counters zero, nothing dispatched yet. -/
def freshOSI : OSI := { n_mat := 0, n_mats := 0, mats := 0, log := [] }

/-- Modelled from the spec: `OpenSeesObject.to_process` (in the missing
`base_model.py`) hands `self._parameters` to the context's active
Dispatch Backend, which emits synchronously — Live forwards the token
list to the engine, Recording appends it to the transcript.  Both are
modelled as appending the token list to the context's ordered log. -/
def to_process (params : List PyVal) (osi : OSI) : OSI :=
  { osi with log := osi.log ++ [params] }

/-- A constructed command object as the claims observe it: its `tag`
attribute (`Option` because an arbitrary Python object passed as a
reference may lack the attribute; objects built by the constructors
always carry one) and its `_parameters` token list. -/
structure Obj where
  tag : Option ℤ
  params : List PyVal
  deriving DecidableEq

/-- The `special_pms` loop WITHOUT an `else: break` clause
(`standard.py`, e.g. `Elastic`, `ElasticPP`): every stored field that is
not `None` is appended; a `None` field is skipped and the loop continues.
All `packets` entries are `False` in the translated constructors, so the
packet branch does not arise. -/
def specialPmsNoBreak (params : List PyVal) : List (Option PyVal) → List PyVal
  | [] => params
  | Option.none :: rest => specialPmsNoBreak params rest
  | Option.some v :: rest => specialPmsNoBreak (params ++ [v]) rest

/-- The `special_pms` loop WITH the `else: break` clause (`other.py`,
e.g. `Cast`): the first stored field that is `None` stops the loop, so
every later field — present or not — is dropped.  All `packets` entries
are `False` in the translated constructors. -/
def specialPmsBreak (params : List PyVal) : List (Option PyVal) → List PyVal
  | [] => params
  | Option.none :: _ => params
  | Option.some v :: rest => specialPmsBreak (params ++ [v]) rest

/-- The `if getattr(self, f) is not None: self._parameters += [flag, self.f]`
idiom used for independent flagged blocks (`Fatigue`, `MinMax`). -/
def flagBlock (flag : String) : Option ℚ → List PyVal
  | Option.none => []
  | Option.some q => [PyVal.str flag, PyVal.float q]

/-- `Elastic.__init__` (`standard.py` lines 7–22).  Note the source:
`self.eneg = float(eneg)` unconditionally (default `eneg=None`), then
`osi.n_mats += 1; self._tag = osi.mats`.  The class body declares no
`op_type`; modelled from the spec: the op_type literal is `"Elastic"`
(§8 concrete scenario). -/
def Elastic (osi : OSI) (big_e eta eneg : PyVal) : Except PyErr Obj × OSI :=
  match (do
      let big_e ← pyFloat big_e
      let eta ← pyFloat eta
      let eneg ← pyFloat eneg
      pure (big_e, eta, eneg) : Except PyErr (ℚ × ℚ × ℚ)) with
  | Except.error e => (Except.error e, osi)
  | Except.ok (big_e, eta, eneg) =>
    let osi := { osi with n_mats := osi.n_mats + 1 }
    let tag := osi.mats
    let params := [PyVal.str "Elastic", PyVal.int tag, PyVal.float big_e,
      PyVal.float eta]
    let params := specialPmsNoBreak params [Option.some (PyVal.float eneg)]
    (Except.ok { tag := Option.some tag, params := params }, to_process params osi)

/-- `ENT.__init__` (`standard.py` lines 62–67): one required field, then
`osi.n_mats += 1; self._tag = osi.mats`.  The class body declares no
`op_type`; modelled from the spec's naming convention as the literal
`"ENT"`. -/
def ENT (osi : OSI) (big_e : PyVal) : Except PyErr Obj × OSI :=
  match pyFloat big_e with
  | Except.error e => (Except.error e, osi)
  | Except.ok big_e =>
    let osi := { osi with n_mats := osi.n_mats + 1 }
    let tag := osi.mats
    let params := [PyVal.str "ENT", PyVal.int tag, PyVal.float big_e]
    (Except.ok { tag := Option.some tag, params := params }, to_process params osi)

/-- `Hardening.__init__` (`other.py` lines 14–39): five required floats,
`osi.n_mat += 1; self._tag = osi.n_mat`, parameters
`[op_type, tag, big_e, sigma_y, h_iso, h_kin, eta]`, then dispatch. -/
def Hardening (osi : OSI) (big_e sigma_y h_iso h_kin eta : PyVal) :
    Except PyErr Obj × OSI :=
  match (do
      let big_e ← pyFloat big_e
      let sigma_y ← pyFloat sigma_y
      let h_iso ← pyFloat h_iso
      let h_kin ← pyFloat h_kin
      let eta ← pyFloat eta
      pure (big_e, sigma_y, h_iso, h_kin, eta) :
      Except PyErr (ℚ × ℚ × ℚ × ℚ × ℚ)) with
  | Except.error e => (Except.error e, osi)
  | Except.ok (big_e, sigma_y, h_iso, h_kin, eta) =>
    let osi := { osi with n_mat := osi.n_mat + 1 }
    let tag := osi.n_mat
    let params := [PyVal.str "Hardening", PyVal.int tag, PyVal.float big_e,
      PyVal.float sigma_y, PyVal.float h_iso, PyVal.float h_kin, PyVal.float eta]
    (Except.ok { tag := Option.some tag, params := params }, to_process params osi)

/-- `Cast.__init__` (`other.py` lines 51–121): ten required coercions
(`n` via `int`, the rest via `float`), guarded coercions for `a1` and
`a3`, unconditional `float` for `a2` and `a4`, then
`osi.n_mat += 1; self._tag = osi.n_mat`, the required-field parameter
list, and the `special_pms` loop over `['a1','a2','a3','a4']` with the
`else: break` clause. -/
def Cast (osi : OSI) (n bo h fy big_e big_l b ro c_r1 c_r2 a1 a2 a3 a4 : PyVal) :
    Except PyErr Obj × OSI :=
  match (do
      let n ← pyInt n
      let bo ← pyFloat bo
      let h ← pyFloat h
      let fy ← pyFloat fy
      let big_e ← pyFloat big_e
      let big_l ← pyFloat big_l
      let b ← pyFloat b
      let ro ← pyFloat ro
      let c_r1 ← pyFloat c_r1
      let c_r2 ← pyFloat c_r2
      let a1 ← pyFloatOpt a1
      let a2 ← pyFloat a2
      let a3 ← pyFloatOpt a3
      let a4 ← pyFloat a4
      pure (n, bo, h, fy, big_e, big_l, b, ro, c_r1, c_r2, a1, a2, a3, a4) :
      Except PyErr (ℤ × ℚ × ℚ × ℚ × ℚ × ℚ × ℚ × ℚ × ℚ × ℚ ×
        Option ℚ × ℚ × Option ℚ × ℚ)) with
  | Except.error e => (Except.error e, osi)
  | Except.ok (n, bo, h, fy, big_e, big_l, b, ro, c_r1, c_r2, a1, a2, a3, a4) =>
    let osi := { osi with n_mat := osi.n_mat + 1 }
    let tag := osi.n_mat
    let params := [PyVal.str "Cast", PyVal.int tag, PyVal.int n, PyVal.float bo,
      PyVal.float h, PyVal.float fy, PyVal.float big_e, PyVal.float big_l,
      PyVal.float b, PyVal.float ro, PyVal.float c_r1, PyVal.float c_r2]
    let params := specialPmsBreak params
      [a1.map PyVal.float, Option.some (PyVal.float a2),
        a3.map PyVal.float, Option.some (PyVal.float a4)]
    (Except.ok { tag := Option.some tag, params := params }, to_process params osi)

/-- `SAWS.__init__` (`other.py` lines 558–601): ten required floats,
`osi.n_mat += 1; self._tag = osi.n_mat`, parameters
`[op_type, tag, f0, fi, du, s0, r1, r2, r3, r4, alpha, beta]`. -/
def SAWS (osi : OSI) (f0 fi du s0 r1 r2 r3 r4 alpha beta : PyVal) :
    Except PyErr Obj × OSI :=
  match (do
      let f0 ← pyFloat f0
      let fi ← pyFloat fi
      let du ← pyFloat du
      let s0 ← pyFloat s0
      let r1 ← pyFloat r1
      let r2 ← pyFloat r2
      let r3 ← pyFloat r3
      let r4 ← pyFloat r4
      let alpha ← pyFloat alpha
      let beta ← pyFloat beta
      pure (f0, fi, du, s0, r1, r2, r3, r4, alpha, beta) :
      Except PyErr (ℚ × ℚ × ℚ × ℚ × ℚ × ℚ × ℚ × ℚ × ℚ × ℚ)) with
  | Except.error e => (Except.error e, osi)
  | Except.ok (f0, fi, du, s0, r1, r2, r3, r4, alpha, beta) =>
    let osi := { osi with n_mat := osi.n_mat + 1 }
    let tag := osi.n_mat
    let params := [PyVal.str "SAWS", PyVal.int tag, PyVal.float f0, PyVal.float fi,
      PyVal.float du, PyVal.float s0, PyVal.float r1, PyVal.float r2,
      PyVal.float r3, PyVal.float r4, PyVal.float alpha, PyVal.float beta]
    (Except.ok { tag := Option.some tag, params := params }, to_process params osi)

/-- `BondSP01.__init__` (`other.py` lines 696–724): six required floats,
`osi.n_mat += 1; self._tag = osi.n_mat`, parameters
`[op_type, tag, fy, sy, fu, su, b, big_r]` with `op_type = 'Bond_SP01'`. -/
def BondSP01 (osi : OSI) (fy sy fu su b big_r : PyVal) : Except PyErr Obj × OSI :=
  match (do
      let fy ← pyFloat fy
      let sy ← pyFloat sy
      let fu ← pyFloat fu
      let su ← pyFloat su
      let b ← pyFloat b
      let big_r ← pyFloat big_r
      pure (fy, sy, fu, su, b, big_r) :
      Except PyErr (ℚ × ℚ × ℚ × ℚ × ℚ × ℚ)) with
  | Except.error e => (Except.error e, osi)
  | Except.ok (fy, sy, fu, su, b, big_r) =>
    let osi := { osi with n_mat := osi.n_mat + 1 }
    let tag := osi.n_mat
    let params := [PyVal.str "Bond_SP01", PyVal.int tag, PyVal.float fy,
      PyVal.float sy, PyVal.float fu, PyVal.float su, PyVal.float b,
      PyVal.float big_r]
    (Except.ok { tag := Option.some tag, params := params }, to_process params osi)

/-- `Fatigue.__init__` (`other.py` lines 736–781): stores the reference
`other`, guard-coerces `e0`, `m`, `min`, `max`, increments `osi.n_mat`,
assembles `[op_type, tag, self.other.tag]` (the `.tag` read can raise
`AttributeError`, after the counter was already incremented), then one
independent `if`-guarded flag block per optional field, in declared
order `-E0`, `-m`, `-min`, `-max`. -/
def Fatigue (osi : OSI) (other : Obj) (e0 m min max : PyVal) :
    Except PyErr Obj × OSI :=
  match (do
      let e0 ← pyFloatOpt e0
      let m ← pyFloatOpt m
      let min ← pyFloatOpt min
      let max ← pyFloatOpt max
      pure (e0, m, min, max) :
      Except PyErr (Option ℚ × Option ℚ × Option ℚ × Option ℚ)) with
  | Except.error e => (Except.error e, osi)
  | Except.ok (e0, m, min, max) =>
    let osi := { osi with n_mat := osi.n_mat + 1 }
    let tag := osi.n_mat
    match other.tag with
    | Option.none => (Except.error PyErr.attributeError, osi)
    | Option.some t =>
      let params := [PyVal.str "Fatigue", PyVal.int tag, PyVal.int t]
        ++ flagBlock "-E0" e0 ++ flagBlock "-m" m
        ++ flagBlock "-min" min ++ flagBlock "-max" max
      (Except.ok { tag := Option.some tag, params := params }, to_process params osi)

/-- `MinMax.__init__` (`other.py` lines 944–973): stores the reference
`other`, guard-coerces `min_strain` and `max_strain`, increments
`osi.n_mat`, assembles `[op_type, tag, self.other.tag]`, then the two
independent flag blocks `-min` and `-max`. -/
def MinMax (osi : OSI) (other : Obj) (min_strain max_strain : PyVal) :
    Except PyErr Obj × OSI :=
  match (do
      let min_strain ← pyFloatOpt min_strain
      let max_strain ← pyFloatOpt max_strain
      pure (min_strain, max_strain) :
      Except PyErr (Option ℚ × Option ℚ)) with
  | Except.error e => (Except.error e, osi)
  | Except.ok (min_strain, max_strain) =>
    let osi := { osi with n_mat := osi.n_mat + 1 }
    let tag := osi.n_mat
    match other.tag with
    | Option.none => (Except.error PyErr.attributeError, osi)
    | Option.some t =>
      let params := [PyVal.str "MinMax", PyVal.int tag, PyVal.int t]
        ++ flagBlock "-min" min_strain ++ flagBlock "-max" max_strain
      (Except.ok { tag := Option.some tag, params := params }, to_process params osi)

/-- `LimitState.__init__` (`other.py` lines 863–931): seventeen required
floats, the reference `curve` stored raw, `curve_type` via `int`,
increment, then parameters ending `..., self.curve.tag, self.curve_type`
(the `.tag` read happens after the increment). -/
def LimitState (osi : OSI)
    (s1p e1p s2p e2p s3p e3p s1n e1n s2n e2n s3n e3n pinch_x pinch_y
      damage1 damage2 beta : PyVal) (curve : Obj) (curve_type : PyVal) :
    Except PyErr Obj × OSI :=
  match (do
      let s1p ← pyFloat s1p
      let e1p ← pyFloat e1p
      let s2p ← pyFloat s2p
      let e2p ← pyFloat e2p
      let s3p ← pyFloat s3p
      let e3p ← pyFloat e3p
      let s1n ← pyFloat s1n
      let e1n ← pyFloat e1n
      let s2n ← pyFloat s2n
      let e2n ← pyFloat e2n
      let s3n ← pyFloat s3n
      let e3n ← pyFloat e3n
      let pinch_x ← pyFloat pinch_x
      let pinch_y ← pyFloat pinch_y
      let damage1 ← pyFloat damage1
      let damage2 ← pyFloat damage2
      let beta ← pyFloat beta
      let curve_type ← pyInt curve_type
      pure (s1p, e1p, s2p, e2p, s3p, e3p, s1n, e1n, s2n, e2n, s3n, e3n,
        pinch_x, pinch_y, damage1, damage2, beta, curve_type) :
      Except PyErr (ℚ × ℚ × ℚ × ℚ × ℚ × ℚ × ℚ × ℚ × ℚ × ℚ × ℚ × ℚ ×
        ℚ × ℚ × ℚ × ℚ × ℚ × ℤ)) with
  | Except.error e => (Except.error e, osi)
  | Except.ok (s1p, e1p, s2p, e2p, s3p, e3p, s1n, e1n, s2n, e2n, s3n, e3n,
      pinch_x, pinch_y, damage1, damage2, beta, curve_type) =>
    let osi := { osi with n_mat := osi.n_mat + 1 }
    let tag := osi.n_mat
    match curve.tag with
    | Option.none => (Except.error PyErr.attributeError, osi)
    | Option.some t =>
      let params := [PyVal.str "LimitState", PyVal.int tag, PyVal.float s1p,
        PyVal.float e1p, PyVal.float s2p, PyVal.float e2p, PyVal.float s3p,
        PyVal.float e3p, PyVal.float s1n, PyVal.float e1n, PyVal.float s2n,
        PyVal.float e2n, PyVal.float s3n, PyVal.float e3n, PyVal.float pinch_x,
        PyVal.float pinch_y, PyVal.float damage1, PyVal.float damage2,
        PyVal.float beta, PyVal.int t, PyVal.int curve_type]
      (Except.ok { tag := Option.some tag, params := params }, to_process params osi)

/-- `PathIndependent.__init__` (`other.py` lines 1165–1178): stores the
reference `other`, increments `osi.n_mat`, assembles
`[op_type, tag, self.other.tag]` (the `.tag` read happens after the
increment), then dispatches. -/
def PathIndependent (osi : OSI) (other : Obj) : Except PyErr Obj × OSI :=
  let osi := { osi with n_mat := osi.n_mat + 1 }
  let tag := osi.n_mat
  match other.tag with
  | Option.none => (Except.error PyErr.attributeError, osi)
  | Option.some t =>
    let params := [PyVal.str "PathIndependent", PyVal.int tag, PyVal.int t]
    (Except.ok { tag := Option.some tag, params := params }, to_process params osi)

/-- `ElasticMultiLinear.__init__` (`other.py` lines 1049–1072): coerces
`eta`, stores `strain` and `stress` raw (each is `None` or a list —
typed here as `Option (List PyVal)`), increments `osi.n_mat`, assembles
`[op_type, tag, eta]`, then two independent `if`-guarded blocks
`['-strain', *strain]` and `['-stress', *stress]` in declared order. -/
def ElasticMultiLinear (osi : OSI) (eta : PyVal)
    (strain stress : Option (List PyVal)) : Except PyErr Obj × OSI :=
  match pyFloat eta with
  | Except.error e => (Except.error e, osi)
  | Except.ok eta =>
    let osi := { osi with n_mat := osi.n_mat + 1 }
    let tag := osi.n_mat
    let params := [PyVal.str "ElasticMultiLinear", PyVal.int tag, PyVal.float eta]
    let params := params ++ (match strain with
      | Option.none => []
      | Option.some xs => PyVal.str "-strain" :: xs)
    let params := params ++ (match stress with
      | Option.none => []
      | Option.some xs => PyVal.str "-stress" :: xs)
    (Except.ok { tag := Option.some tag, params := params }, to_process params osi)

/-- `Straight.__init__` (`layer.py` lines 16–38): `int(num_fiber)`,
`float(area_fiber)`, `start` and `end` stored raw (coordinate lists),
then `osi.n_mat += 1; self._tag = osi.n_mat` — the same context counter
the uniaxial-material constructors in `other.py` use — and parameters
`[op_type, tag, num_fiber, area_fiber, *start, *end]`. -/
def Straight (osi : OSI) (num_fiber area_fiber : PyVal)
    (start end_ : List PyVal) : Except PyErr Obj × OSI :=
  match (do
      let num_fiber ← pyInt num_fiber
      let area_fiber ← pyFloat area_fiber
      pure (num_fiber, area_fiber) : Except PyErr (ℤ × ℚ)) with
  | Except.error e => (Except.error e, osi)
  | Except.ok (num_fiber, area_fiber) =>
    let osi := { osi with n_mat := osi.n_mat + 1 }
    let tag := osi.n_mat
    let params := [PyVal.str "straight", PyVal.int tag, PyVal.int num_fiber,
      PyVal.float area_fiber] ++ start ++ end_
    (Except.ok { tag := Option.some tag, params := params }, to_process params osi)

/-- `Circ.__init__` (`layer.py` lines 48–76): `int(num_fiber)`,
`float(area_fiber)`, `center` and optional `ang` stored raw,
`float(radius)`, then `osi.n_mat += 1; self._tag = osi.n_mat`,
parameters `[op_type, tag, num_fiber, area_fiber, *center, radius]`,
and `if self.ang is not None: self._parameters += self.ang`. -/
def Circ (osi : OSI) (num_fiber area_fiber : PyVal) (center : List PyVal)
    (radius : PyVal) (ang : Option (List PyVal)) : Except PyErr Obj × OSI :=
  match (do
      let num_fiber ← pyInt num_fiber
      let area_fiber ← pyFloat area_fiber
      let radius ← pyFloat radius
      pure (num_fiber, area_fiber, radius) : Except PyErr (ℤ × ℚ × ℚ)) with
  | Except.error e => (Except.error e, osi)
  | Except.ok (num_fiber, area_fiber, radius) =>
    let osi := { osi with n_mat := osi.n_mat + 1 }
    let tag := osi.n_mat
    let params := [PyVal.str "circ", PyVal.int tag, PyVal.int num_fiber,
      PyVal.float area_fiber] ++ center ++ [PyVal.float radius]
    let params := params ++ (match ang with
      | Option.none => []
      | Option.some xs => xs)
    (Except.ok { tag := Option.some tag, params := params }, to_process params osi)

/-- One construction request for any of the translated constructors,
with the arguments the caller would pass. -/
inductive Cmd where
  | elastic (big_e eta eneg : PyVal)
  | ent (big_e : PyVal)
  | hardening (big_e sigma_y h_iso h_kin eta : PyVal)
  | cast (n bo h fy big_e big_l b ro c_r1 c_r2 a1 a2 a3 a4 : PyVal)
  | saws (f0 fi du s0 r1 r2 r3 r4 alpha beta : PyVal)
  | bondSP01 (fy sy fu su b big_r : PyVal)
  | fatigue (other : Obj) (e0 m min max : PyVal)
  | minMax (other : Obj) (min_strain max_strain : PyVal)
  | limitState (s1p e1p s2p e2p s3p e3p s1n e1n s2n e2n s3n e3n pinch_x
      pinch_y damage1 damage2 beta : PyVal) (curve : Obj) (curve_type : PyVal)
  | pathIndependent (other : Obj)
  | elasticMultiLinear (eta : PyVal) (strain stress : Option (List PyVal))
  | straight (num_fiber area_fiber : PyVal) (start end_ : List PyVal)
  | circ (num_fiber area_fiber : PyVal) (center : List PyVal) (radius : PyVal)
      (ang : Option (List PyVal))

/-- Run one constructor call against a context. -/
def run1 (osi : OSI) : Cmd → Except PyErr Obj × OSI
  | Cmd.elastic big_e eta eneg => Elastic osi big_e eta eneg
  | Cmd.ent big_e => ENT osi big_e
  | Cmd.hardening big_e sigma_y h_iso h_kin eta =>
      Hardening osi big_e sigma_y h_iso h_kin eta
  | Cmd.cast n bo h fy big_e big_l b ro c_r1 c_r2 a1 a2 a3 a4 =>
      Cast osi n bo h fy big_e big_l b ro c_r1 c_r2 a1 a2 a3 a4
  | Cmd.saws f0 fi du s0 r1 r2 r3 r4 alpha beta =>
      SAWS osi f0 fi du s0 r1 r2 r3 r4 alpha beta
  | Cmd.bondSP01 fy sy fu su b big_r => BondSP01 osi fy sy fu su b big_r
  | Cmd.fatigue other e0 m min max => Fatigue osi other e0 m min max
  | Cmd.minMax other min_strain max_strain => MinMax osi other min_strain max_strain
  | Cmd.limitState s1p e1p s2p e2p s3p e3p s1n e1n s2n e2n s3n e3n pinch_x
      pinch_y damage1 damage2 beta curve curve_type =>
      LimitState osi s1p e1p s2p e2p s3p e3p s1n e1n s2n e2n s3n e3n pinch_x
        pinch_y damage1 damage2 beta curve curve_type
  | Cmd.pathIndependent other => PathIndependent osi other
  | Cmd.elasticMultiLinear eta strain stress =>
      ElasticMultiLinear osi eta strain stress
  | Cmd.straight num_fiber area_fiber start end_ =>
      Straight osi num_fiber area_fiber start end_
  | Cmd.circ num_fiber area_fiber center radius ang =>
      Circ osi num_fiber area_fiber center radius ang

/-- Run a sequence of constructor calls in order, stopping at the first
exception, exactly as a Python caller executing the constructions one
after another would. -/
def runAll (osi : OSI) : List Cmd → Except PyErr (List Obj) × OSI
  | [] => (Except.ok [], osi)
  | c :: cs =>
    match run1 osi c with
    | (Except.error e, osi1) => (Except.error e, osi1)
    | (Except.ok o, osi1) =>
      match runAll osi1 cs with
      | (Except.error e, osi2) => (Except.error e, osi2)
      | (Except.ok os, osi2) => (Except.ok (o :: os), osi2)

lemma run1_ok_log (osi : OSI) (c : Cmd) (o : Obj) (osi' : OSI)
    (h : run1 osi c = (Except.ok o, osi')) :
    osi'.log = osi.log ++ [o.params] := by
  cases c <;>
    simp only [run1, Elastic, ENT, Hardening, Cast, SAWS, BondSP01, Fatigue,
      MinMax, LimitState, PathIndependent, ElasticMultiLinear, Straight,
      Circ] at h <;>
    (repeat' split at h) <;>
    simp only [Prod.mk.injEq, Except.ok.injEq, reduceCtorEq, false_and] at h <;>
    (first
      | exact h.elim
      | (obtain ⟨h1, h2⟩ := h
         subst h1
         subst h2
         simp [to_process]))

lemma run1_coerce_err (osi : OSI) (c : Cmd) (e : PyErr) (osi' : OSI)
    (h : run1 osi c = (Except.error e, osi'))
    (hne : e ≠ PyErr.attributeError) : osi' = osi := by
  cases c <;>
    simp only [run1, Elastic, ENT, Hardening, Cast, SAWS, BondSP01, Fatigue,
      MinMax, LimitState, PathIndependent, ElasticMultiLinear, Straight,
      Circ] at h <;>
    (repeat' split at h) <;>
    simp only [Prod.mk.injEq, Except.error.injEq, reduceCtorEq, false_and] at h <;>
    (first
      | exact h.elim
      | (obtain ⟨h1, h2⟩ := h
         subst h2
         first
          | rfl
          | exact absurd h1.symm hne))

lemma runAll_ok_log (osi : OSI) (cmds : List Cmd) (os : List Obj) (osi' : OSI)
    (h : runAll osi cmds = (Except.ok os, osi')) :
    osi'.log = osi.log ++ os.map Obj.params := by
  induction cmds generalizing osi os with
  | nil =>
    simp only [runAll, Prod.mk.injEq, Except.ok.injEq] at h
    obtain ⟨h1, h2⟩ := h
    subst h1 h2
    simp
  | cons c cs ih =>
    simp only [runAll] at h
    split at h
    · simp_all
    · rename_i o osi1 hr1
      split at h
      · simp_all
      · rename_i os1 osi2 hr2
        simp only [Prod.mk.injEq, Except.ok.injEq] at h
        obtain ⟨h1, h2⟩ := h
        subst h1 h2
        have hl1 := run1_ok_log osi c o osi1 hr1
        have hl2 := ih osi1 os1 hr2
        simp [hl2, hl1]

lemma runAll_ok_length (osi : OSI) (cmds : List Cmd) (os : List Obj)
    (osi' : OSI) (h : runAll osi cmds = (Except.ok os, osi')) :
    os.length = cmds.length := by
  induction cmds generalizing osi os with
  | nil =>
    simp only [runAll, Prod.mk.injEq, Except.ok.injEq] at h
    obtain ⟨h1, _⟩ := h
    subst h1
    rfl
  | cons c cs ih =>
    simp only [runAll] at h
    split at h
    · simp_all
    · rename_i o osi1 hr1
      split at h
      · simp_all
      · rename_i os1 osi2 hr2
        simp only [Prod.mk.injEq, Except.ok.injEq] at h
        obtain ⟨h1, h2⟩ := h
        subst h1 h2
        simp [ih osi1 os1 hr2]

/-- C1: the spec's concrete scenario claims that constructing an
`Elastic` material with `big_e=2.0e8`, `eta=0.0` and the optional `eneg`
left absent succeeds with tokens `["Elastic", 1, 2.0e8, 0.0]` (and a
second one gets tag 2).  The source instead executes
`self.eneg = float(eneg)` with `eneg=None` (`standard.py` line 10),
which raises `TypeError` before the counter is touched and before
anything is dispatched: the construction fails and the context is left
exactly as it was. -/
theorem C1_elastic_default_eneg_raises :
    Elastic freshOSI (PyVal.float 200000000) (PyVal.float 0) PyVal.none
      = (Except.error PyErr.typeError, freshOSI) := rfl

/-- C2: the claim says tags within one category are strictly increasing
consecutive integers starting at 1.  The `standard.py` constructors
execute `osi.n_mats += 1; self._tag = osi.mats`: the attribute that is
incremented (`n_mats`) is not the attribute the tag is read from
(`mats`), so two consecutive `ENT` constructions both receive tag 0 —
not 1 and 2 — while `n_mats` ends at 2 and `mats` never moves. -/
theorem C2_standard_py_tags_repeat :
    runAll freshOSI [Cmd.ent (PyVal.float 1), Cmd.ent (PyVal.float 2)]
      = (Except.ok
          [⟨Option.some 0, [PyVal.str "ENT", PyVal.int 0, PyVal.float 1]⟩,
           ⟨Option.some 0, [PyVal.str "ENT", PyVal.int 0, PyVal.float 2]⟩],
         ⟨0, 2, 0, [[PyVal.str "ENT", PyVal.int 0, PyVal.float 1],
                    [PyVal.str "ENT", PyVal.int 0, PyVal.float 2]]⟩) := rfl

/-- C3 counterexample: the claim says constructing a layer does not
advance the counter used by uniaxial materials and cannot collide with
the material category's next tag.  On a fresh context, `Straight` (a
layer) performs `osi.n_mat += 1` — the very counter every `other.py`
material constructor uses — taking tag 1, which is exactly the tag a
`Hardening` material would have received on the fresh context; a
`Hardening` constructed after the layer receives tag 2 instead of 1. -/
theorem C3_layer_advances_material_counter :
    (Straight freshOSI (PyVal.int 2) (PyVal.float 1) [] []).2.n_mat = 1 ∧
    (Hardening freshOSI (PyVal.float 1) (PyVal.float 1) (PyVal.float 1)
        (PyVal.float 1) (PyVal.float 1)).1
      = Except.ok ⟨Option.some 1, [PyVal.str "Hardening", PyVal.int 1,
          PyVal.float 1, PyVal.float 1, PyVal.float 1, PyVal.float 1,
          PyVal.float 1]⟩ ∧
    (Hardening (Straight freshOSI (PyVal.int 2) (PyVal.float 1) [] []).2
        (PyVal.float 1) (PyVal.float 1) (PyVal.float 1) (PyVal.float 1)
        (PyVal.float 1)).1
      = Except.ok ⟨Option.some 2, [PyVal.str "Hardening", PyVal.int 2,
          PyVal.float 1, PyVal.float 1, PyVal.float 1, PyVal.float 1,
          PyVal.float 1]⟩ :=
  ⟨rfl, rfl, rfl⟩

/-- C3 amended: layers and uniaxial materials share one counter.  Every
successful `Straight` construction increments `osi.n_mat` — the counter
that assigns uniaxial-material tags — and takes tag `n_mat + 1` from it,
so a material constructed immediately afterwards receives `n_mat + 2`:
layer tags and material tags are drawn from a single shared sequence. -/
theorem C3_layers_and_materials_share_counter (osi : OSI)
    (num_fiber area_fiber : PyVal) (start end_ : List PyVal) (o : Obj)
    (osi' : OSI)
    (h : Straight osi num_fiber area_fiber start end_ = (Except.ok o, osi')) :
    osi'.n_mat = osi.n_mat + 1 ∧ o.tag = Option.some (osi.n_mat + 1) ∧
    ∀ b1 b2 b3 b4 b5 : ℚ,
      (Hardening osi' (PyVal.float b1) (PyVal.float b2) (PyVal.float b3)
          (PyVal.float b4) (PyVal.float b5)).1
        = Except.ok ⟨Option.some (osi.n_mat + 2),
            [PyVal.str "Hardening", PyVal.int (osi.n_mat + 2), PyVal.float b1,
             PyVal.float b2, PyVal.float b3, PyVal.float b4,
             PyVal.float b5]⟩ := by
  unfold Straight at h
  split at h
  · simp at h
  · simp only [Prod.mk.injEq, Except.ok.injEq] at h
    obtain ⟨h1, h2⟩ := h
    subst h1
    subst h2
    refine ⟨rfl, rfl, ?_⟩
    intro b1 b2 b3 b4 b5
    have ht : osi.n_mat + 2 = osi.n_mat + 1 + 1 := by ring
    rw [ht]
    rfl

/-- C3 amended, witness: instantiating on a fresh context — the layer
takes tag 1 from `n_mat`, and a subsequent `Hardening` gets tag 2. -/
theorem C3_layers_and_materials_share_counter_witness :
    (Straight freshOSI (PyVal.int 2) (PyVal.float 1) [] []).2.n_mat
        = freshOSI.n_mat + 1 ∧
    (Obj.tag ⟨Option.some 1, [PyVal.str "straight", PyVal.int 1, PyVal.int 2,
        PyVal.float 1]⟩) = Option.some (freshOSI.n_mat + 1) ∧
    ∀ b1 b2 b3 b4 b5 : ℚ,
      (Hardening (Straight freshOSI (PyVal.int 2) (PyVal.float 1) [] []).2
          (PyVal.float b1) (PyVal.float b2) (PyVal.float b3) (PyVal.float b4)
          (PyVal.float b5)).1
        = Except.ok ⟨Option.some (freshOSI.n_mat + 2),
            [PyVal.str "Hardening", PyVal.int (freshOSI.n_mat + 2),
             PyVal.float b1, PyVal.float b2, PyVal.float b3, PyVal.float b4,
             PyVal.float b5]⟩ :=
  C3_layers_and_materials_share_counter freshOSI (PyVal.int 2) (PyVal.float 1)
    [] [] _ _ rfl

/-- C4: for command objects all of whose fields are required — `SAWS`
and `BondSP01` are the cited instances — the encoded parameter list is
exactly the op_type literal, then the assigned tag, then the coerced
required field values in declared order, and nothing else. -/
theorem C4_required_fields_encoding (osi : OSI)
    (f0 fi du s0 r1 r2 r3 r4 alpha beta fy sy fu su b big_r : ℚ) :
    (SAWS osi (PyVal.float f0) (PyVal.float fi) (PyVal.float du)
        (PyVal.float s0) (PyVal.float r1) (PyVal.float r2) (PyVal.float r3)
        (PyVal.float r4) (PyVal.float alpha) (PyVal.float beta)).1
      = Except.ok ⟨Option.some (osi.n_mat + 1),
          [PyVal.str "SAWS", PyVal.int (osi.n_mat + 1), PyVal.float f0,
           PyVal.float fi, PyVal.float du, PyVal.float s0, PyVal.float r1,
           PyVal.float r2, PyVal.float r3, PyVal.float r4, PyVal.float alpha,
           PyVal.float beta]⟩ ∧
    (BondSP01 osi (PyVal.float fy) (PyVal.float sy) (PyVal.float fu)
        (PyVal.float su) (PyVal.float b) (PyVal.float big_r)).1
      = Except.ok ⟨Option.some (osi.n_mat + 1),
          [PyVal.str "Bond_SP01", PyVal.int (osi.n_mat + 1), PyVal.float fy,
           PyVal.float sy, PyVal.float fu, PyVal.float su, PyVal.float b,
           PyVal.float big_r]⟩ :=
  ⟨rfl, rfl⟩

/-- C5 counterexample: the claim says that providing a later
strictly-ordered optional (`a3`) while an earlier one (`a1`) is absent
fails with a ParameterOrderError before dispatch.  On the source this
`Cast` construction raises nothing: it succeeds, takes tag 1, emits only
the twelve required tokens, and the provided `a3 = 5.0` never appears in
the encoding — it is silently skipped, not rejected. -/
theorem C5_present_after_absent_not_rejected :
    (Cast freshOSI (PyVal.int 2) (PyVal.float 1) (PyVal.float 1)
        (PyVal.float 1) (PyVal.float 1) (PyVal.float 1) (PyVal.float 1)
        (PyVal.float 1) (PyVal.float 1) (PyVal.float 1) PyVal.none
        (PyVal.float 1) (PyVal.float 5) (PyVal.float 1)).1
      = Except.ok ⟨Option.some 1, [PyVal.str "Cast", PyVal.int 1, PyVal.int 2,
          PyVal.float 1, PyVal.float 1, PyVal.float 1, PyVal.float 1,
          PyVal.float 1, PyVal.float 1, PyVal.float 1, PyVal.float 1,
          PyVal.float 1]⟩ ∧
    PyVal.float 5 ∉ [PyVal.str "Cast", PyVal.int 1, PyVal.int 2,
      PyVal.float 1, PyVal.float 1, PyVal.float 1, PyVal.float 1,
      PyVal.float 1, PyVal.float 1, PyVal.float 1, PyVal.float 1,
      PyVal.float 1] :=
  ⟨rfl, by decide⟩

/-- C5 amended: no error is raised and no ParameterOrderError exists in
the source.  In `Cast` (the `special_pms` loop with `else: break`), once
an earlier strictly-ordered optional is absent the loop stops: the
construction succeeds, the encoding contains exactly the required
prefix, and every later optional — here the provided `a3` — is silently
dropped, the result being independent of its value. -/
theorem C5_absent_optional_silently_drops_rest (osi : OSI) (n : ℤ)
    (bo h fy big_e big_l b ro c_r1 c_r2 a2q a3q a4q : ℚ) :
    Cast osi (PyVal.int n) (PyVal.float bo) (PyVal.float h) (PyVal.float fy)
        (PyVal.float big_e) (PyVal.float big_l) (PyVal.float b)
        (PyVal.float ro) (PyVal.float c_r1) (PyVal.float c_r2) PyVal.none
        (PyVal.float a2q) (PyVal.float a3q) (PyVal.float a4q)
      = (Except.ok ⟨Option.some (osi.n_mat + 1),
          [PyVal.str "Cast", PyVal.int (osi.n_mat + 1), PyVal.int n,
           PyVal.float bo, PyVal.float h, PyVal.float fy, PyVal.float big_e,
           PyVal.float big_l, PyVal.float b, PyVal.float ro, PyVal.float c_r1,
           PyVal.float c_r2]⟩,
         to_process [PyVal.str "Cast", PyVal.int (osi.n_mat + 1), PyVal.int n,
           PyVal.float bo, PyVal.float h, PyVal.float fy, PyVal.float big_e,
           PyVal.float big_l, PyVal.float b, PyVal.float ro, PyVal.float c_r1,
           PyVal.float c_r2] { osi with n_mat := osi.n_mat + 1 }) := rfl

/-- C6: flagged optional blocks.  A provided packet field
`stress=[0,1,2]` contributes exactly the trailing tokens
`"-stress", 0, 1, 2` (marker immediately followed by the expanded
elements); omitting `stress` omits both the flag and the values; blocks
are emitted in declared order (`-strain` before `-stress`), and in
`Fatigue` each of the four blocks is skipped individually without
affecting the others (here `e0`, `m`, `min` absent, `max` present). -/
theorem C6_flag_blocks_encoding :
    (∀ (osi : OSI) (q : ℚ) (xs : List PyVal),
      (ElasticMultiLinear osi (PyVal.float q) (Option.some xs)
          (Option.some [PyVal.int 0, PyVal.int 1, PyVal.int 2])).1
        = Except.ok ⟨Option.some (osi.n_mat + 1),
            [PyVal.str "ElasticMultiLinear", PyVal.int (osi.n_mat + 1),
              PyVal.float q] ++ (PyVal.str "-strain" :: xs)
              ++ [PyVal.str "-stress", PyVal.int 0, PyVal.int 1,
                PyVal.int 2]⟩) ∧
    (∀ (osi : OSI) (q : ℚ) (xs : List PyVal),
      (ElasticMultiLinear osi (PyVal.float q) (Option.some xs) Option.none).1
        = Except.ok ⟨Option.some (osi.n_mat + 1),
            [PyVal.str "ElasticMultiLinear", PyVal.int (osi.n_mat + 1),
              PyVal.float q] ++ (PyVal.str "-strain" :: xs)⟩) ∧
    (∀ (osi : OSI) (t : ℤ) (ps : List PyVal) (maxq : ℚ),
      (Fatigue osi ⟨Option.some t, ps⟩ PyVal.none PyVal.none PyVal.none
          (PyVal.float maxq)).1
        = Except.ok ⟨Option.some (osi.n_mat + 1),
            [PyVal.str "Fatigue", PyVal.int (osi.n_mat + 1), PyVal.int t,
              PyVal.str "-max", PyVal.float maxq]⟩) := by
  refine ⟨fun osi q xs => rfl, fun osi q xs => ?_, fun osi t ps maxq => rfl⟩
  simp [ElasticMultiLinear, pyFloat, to_process]

/-- C7: a reference field encodes exactly the referenced object's
integer tag.  `MinMax` and `LimitState` emit `self.other.tag` /
`self.curve.tag` as a single integer token; no other attribute of the
referenced object appears, and the whole construction result is
unchanged when the referenced object's parameter list (its other stored
data) is replaced by anything else. -/
theorem C7_reference_encodes_tag_only :
    (∀ (osi : OSI) (t : ℤ) (ps : List PyVal),
      (MinMax osi ⟨Option.some t, ps⟩ PyVal.none PyVal.none).1
        = Except.ok ⟨Option.some (osi.n_mat + 1),
            [PyVal.str "MinMax", PyVal.int (osi.n_mat + 1), PyVal.int t]⟩) ∧
    (∀ (osi : OSI) (t : ℤ) (ps ps' : List PyVal) (ms xs : PyVal),
      MinMax osi ⟨Option.some t, ps⟩ ms xs
        = MinMax osi ⟨Option.some t, ps'⟩ ms xs) ∧
    (∀ (osi : OSI)
        (q1 q2 q3 q4 q5 q6 q7 q8 q9 q10 q11 q12 q13 q14 q15 q16 q17 : ℚ)
        (t ct : ℤ) (ps ps' : List PyVal),
      LimitState osi (PyVal.float q1) (PyVal.float q2) (PyVal.float q3)
          (PyVal.float q4) (PyVal.float q5) (PyVal.float q6) (PyVal.float q7)
          (PyVal.float q8) (PyVal.float q9) (PyVal.float q10)
          (PyVal.float q11) (PyVal.float q12) (PyVal.float q13)
          (PyVal.float q14) (PyVal.float q15) (PyVal.float q16)
          (PyVal.float q17) ⟨Option.some t, ps⟩ (PyVal.int ct)
        = LimitState osi (PyVal.float q1) (PyVal.float q2) (PyVal.float q3)
          (PyVal.float q4) (PyVal.float q5) (PyVal.float q6) (PyVal.float q7)
          (PyVal.float q8) (PyVal.float q9) (PyVal.float q10)
          (PyVal.float q11) (PyVal.float q12) (PyVal.float q13)
          (PyVal.float q14) (PyVal.float q15) (PyVal.float q16)
          (PyVal.float q17) ⟨Option.some t, ps'⟩ (PyVal.int ct) ∧
      (LimitState osi (PyVal.float q1) (PyVal.float q2) (PyVal.float q3)
          (PyVal.float q4) (PyVal.float q5) (PyVal.float q6) (PyVal.float q7)
          (PyVal.float q8) (PyVal.float q9) (PyVal.float q10)
          (PyVal.float q11) (PyVal.float q12) (PyVal.float q13)
          (PyVal.float q14) (PyVal.float q15) (PyVal.float q16)
          (PyVal.float q17) ⟨Option.some t, ps⟩ (PyVal.int ct)).1
        = Except.ok ⟨Option.some (osi.n_mat + 1),
            [PyVal.str "LimitState", PyVal.int (osi.n_mat + 1),
              PyVal.float q1, PyVal.float q2, PyVal.float q3, PyVal.float q4,
              PyVal.float q5, PyVal.float q6, PyVal.float q7, PyVal.float q8,
              PyVal.float q9, PyVal.float q10, PyVal.float q11,
              PyVal.float q12, PyVal.float q13, PyVal.float q14,
              PyVal.float q15, PyVal.float q16, PyVal.float q17, PyVal.int t,
              PyVal.int ct]⟩) := by
  refine ⟨fun osi t ps => rfl, fun osi t ps ps' ms xs => ?_,
    fun osi q1 q2 q3 q4 q5 q6 q7 q8 q9 q10 q11 q12 q13 q14 q15 q16 q17
      t ct ps ps' => ⟨rfl, rfl⟩⟩
  cases ms <;> cases xs <;> rfl

/-- C8 counterexample: the claim says a reference to an object created
under a different Analysis Context fails with a ContextMismatchError
before dispatch.  Here a `Hardening` material is constructed under one
fresh context (receiving tag 1), and a `PathIndependent` object under a
second, distinct fresh context references it: the construction succeeds
— encoding the foreign object's tag and dispatching — with no error of
any kind. -/
theorem C8_cross_context_reference_accepted :
    (Hardening freshOSI (PyVal.float 1) (PyVal.float 1) (PyVal.float 1)
        (PyVal.float 1) (PyVal.float 1)).1
      = Except.ok ⟨Option.some 1, [PyVal.str "Hardening", PyVal.int 1,
          PyVal.float 1, PyVal.float 1, PyVal.float 1, PyVal.float 1,
          PyVal.float 1]⟩ ∧
    PathIndependent freshOSI ⟨Option.some 1, [PyVal.str "Hardening",
        PyVal.int 1, PyVal.float 1, PyVal.float 1, PyVal.float 1,
        PyVal.float 1, PyVal.float 1]⟩
      = (Except.ok ⟨Option.some 1, [PyVal.str "PathIndependent", PyVal.int 1,
          PyVal.int 1]⟩,
         ⟨1, 0, 0, [[PyVal.str "PathIndependent", PyVal.int 1,
           PyVal.int 1]]⟩) :=
  ⟨rfl, rfl⟩

/-- C8 amended: the constructors perform no reference validation at all.
A reference to an object lacking a `tag` attribute raises
`AttributeError` (not ReferenceError) while the parameter list is being
assembled — after the tag counter has already been incremented and
before anything is dispatched — and a reference to an object from a
different Analysis Context is accepted without any error, its tag
encoded as-is. -/
theorem C8_no_reference_validation :
    (∀ (osi : OSI) (ps : List PyVal),
      PathIndependent osi ⟨Option.none, ps⟩
        = (Except.error PyErr.attributeError,
           { osi with n_mat := osi.n_mat + 1 })) ∧
    (∀ (osi : OSI) (t : ℤ) (ps : List PyVal),
      (PathIndependent osi ⟨Option.some t, ps⟩).1
        = Except.ok ⟨Option.some (osi.n_mat + 1),
            [PyVal.str "PathIndependent", PyVal.int (osi.n_mat + 1),
              PyVal.int t]⟩) :=
  ⟨fun osi ps => rfl, fun osi t ps => rfl⟩

/-- C9: within one Analysis Context, the sequence of parameter lists
handed to the dispatch backend is exactly the construction order — every
successful construction appends exactly one entry, its own parameter
list, to the backend's log, synchronously before the constructor
returns (the `to_process(osi)` call is the last statement of every
`__init__`). -/
theorem C9_dispatch_follows_construction_order (osi : OSI) (cmds : List Cmd)
    (os : List Obj) (osi' : OSI)
    (h : runAll osi cmds = (Except.ok os, osi')) :
    osi'.log = osi.log ++ os.map Obj.params ∧ os.length = cmds.length :=
  ⟨runAll_ok_log osi cmds os osi' h, runAll_ok_length osi cmds os osi' h⟩

/-- C9 witness: a `Hardening` then a `BondSP01` on a fresh context
dispatch exactly their two parameter lists, in construction order. -/
theorem C9_dispatch_follows_construction_order_witness :
    (OSI.log ⟨2, 0, 0,
      [[PyVal.str "Hardening", PyVal.int 1, PyVal.float 1, PyVal.float 1,
        PyVal.float 1, PyVal.float 1, PyVal.float 1],
       [PyVal.str "Bond_SP01", PyVal.int 2, PyVal.float 1, PyVal.float 1,
        PyVal.float 1, PyVal.float 1, PyVal.float 1, PyVal.float 1]]⟩)
      = freshOSI.log ++ List.map Obj.params
          [⟨Option.some 1, [PyVal.str "Hardening", PyVal.int 1, PyVal.float 1,
            PyVal.float 1, PyVal.float 1, PyVal.float 1, PyVal.float 1]⟩,
           ⟨Option.some 2, [PyVal.str "Bond_SP01", PyVal.int 2, PyVal.float 1,
            PyVal.float 1, PyVal.float 1, PyVal.float 1, PyVal.float 1,
            PyVal.float 1]⟩] ∧
    ([⟨Option.some 1, [PyVal.str "Hardening", PyVal.int 1, PyVal.float 1,
        PyVal.float 1, PyVal.float 1, PyVal.float 1, PyVal.float 1]⟩,
      ⟨Option.some 2, [PyVal.str "Bond_SP01", PyVal.int 2, PyVal.float 1,
        PyVal.float 1, PyVal.float 1, PyVal.float 1, PyVal.float 1,
        PyVal.float 1]⟩] : List Obj).length
      = ([Cmd.hardening (PyVal.float 1) (PyVal.float 1) (PyVal.float 1)
          (PyVal.float 1) (PyVal.float 1),
          Cmd.bondSP01 (PyVal.float 1) (PyVal.float 1) (PyVal.float 1)
          (PyVal.float 1) (PyVal.float 1) (PyVal.float 1)] : List Cmd).length :=
  C9_dispatch_follows_construction_order freshOSI
    [Cmd.hardening (PyVal.float 1) (PyVal.float 1) (PyVal.float 1)
      (PyVal.float 1) (PyVal.float 1),
     Cmd.bondSP01 (PyVal.float 1) (PyVal.float 1) (PyVal.float 1)
      (PyVal.float 1) (PyVal.float 1) (PyVal.float 1)]
    [⟨Option.some 1, [PyVal.str "Hardening", PyVal.int 1, PyVal.float 1,
      PyVal.float 1, PyVal.float 1, PyVal.float 1, PyVal.float 1]⟩,
     ⟨Option.some 2, [PyVal.str "Bond_SP01", PyVal.int 2, PyVal.float 1,
      PyVal.float 1, PyVal.float 1, PyVal.float 1, PyVal.float 1,
      PyVal.float 1]⟩]
    ⟨2, 0, 0,
      [[PyVal.str "Hardening", PyVal.int 1, PyVal.float 1, PyVal.float 1,
        PyVal.float 1, PyVal.float 1, PyVal.float 1],
       [PyVal.str "Bond_SP01", PyVal.int 2, PyVal.float 1, PyVal.float 1,
        PyVal.float 1, PyVal.float 1, PyVal.float 1, PyVal.float 1]]⟩ rfl

/-- C10: in every translated constructor the field coercions
(`float`/`int` conversions) happen before the context's counter is
incremented and before dispatch, so a construction that fails with a
coercion error (`TypeError` or `ValueError`) leaves the Analysis Context
— counters and dispatch log alike — exactly unchanged: no tag is
consumed and nothing is dispatched. -/
theorem C10_failed_coercion_consumes_no_tag (osi : OSI) (c : Cmd) (e : PyErr)
    (osi' : OSI) (h : run1 osi c = (Except.error e, osi'))
    (he : e = PyErr.typeError ∨ e = PyErr.valueError) : osi' = osi := by
  refine run1_coerce_err osi c e osi' h ?_
  rcases he with rfl | rfl <;> simp

/-- C10 witness: `Elastic` with its default `eneg=None` fails the
`float(None)` coercion, and the context it returns is the fresh context,
untouched. -/
theorem C10_failed_coercion_consumes_no_tag_witness :
    (run1 freshOSI (Cmd.elastic (PyVal.float 1) (PyVal.float 0) PyVal.none)).2
      = freshOSI :=
  C10_failed_coercion_consumes_no_tag freshOSI
    (Cmd.elastic (PyVal.float 1) (PyVal.float 0) PyVal.none) PyErr.typeError
    (run1 freshOSI (Cmd.elastic (PyVal.float 1) (PyVal.float 0) PyVal.none)).2
    rfl (Or.inl rfl)
